import Mathlib

/-!
Verification of the hybrid (dense + sparse) retrieval service:
a shallow embedding of `app/utils/vector_store.py`,
`app/services/rag_service.py`, `app/models/schemas.py` and the two
routers, with theorems about the embedded definitions.

Floating-point values are modelled as rationals; external collaborators
(embedding model, sparse encoder, index, LLM) are parameters of the
embedded pipeline functions.
-/

set_option maxRecDepth 8000

namespace Rag

/-- Sparse vector: a dict of `indices` and `values`
(as consumed and produced by `hybrid_score_norm`). -/
structure SparseVec where
  indices : List Nat
  values : List ℚ
deriving DecidableEq

/-- Python exceptions observed by the routers: `ValueError` (caught and
mapped to HTTP 404 by `query_router`) versus any other exception
(mapped to HTTP 500). -/
inductive PyError where
  | valueError (msg : String)
  | otherError (msg : String)
deriving DecidableEq

/-- Constructor index of an error: errors with the same kind index are the
same Python exception class. -/
def PyError.kindIdx : PyError → Nat
  | .valueError _ => 0
  | .otherError _ => 1

/-- Observer: does an `Except` hold a success value. -/
def exceptOk {ε α : Type} : Except ε α → Bool
  | .ok _ => true
  | .error _ => false

/-- Embedding of `hybrid_score_norm` (vector_store.py lines 7-23):
validates alpha, scales the dense vector by alpha and the sparse values
by (1 - alpha), keeping the sparse indices unchanged. -/
def hybrid_score_norm (dense : List ℚ) (sparse : SparseVec) (alpha : ℚ) :
    Except PyError (List ℚ × SparseVec) :=
  if alpha < 0 ∨ alpha > 1 then
    .error (.valueError "Alpha must be between 0 and 1")
  else
    .ok (dense.map (fun v => v * alpha),
         ⟨sparse.indices, sparse.values.map (fun v => v * (1 - alpha))⟩)

/-- The keyword arguments `VectorStore.similarity_search` passes to
`self.index.query` (vector_store.py lines 79-103).  The source calls the
first field `namespace`, a reserved word here. -/
structure QueryParams where
  ns : String
  top_k : Nat
  include_metadata : Bool
  vector : List ℚ
  sparse_vector : Option SparseVec
deriving DecidableEq

/-- Embedding of `VectorStore.similarity_search` up to the index call
(vector_store.py lines 67-103): the query parameters sent to the index.
With a sparse vector present the gateway itself normalizes via
`hybrid_score_norm` and overwrites the `vector` field. -/
def similarity_search_params (query_embedding : List ℚ) (ns : String) (k : Nat)
    (query_sparse_vector : Option SparseVec) (alpha : ℚ) :
    Except PyError QueryParams :=
  if ns = "" then .error (.valueError "Namespace is required for similarity search")
  else
    match query_sparse_vector with
    | none => .ok ⟨ns, k, true, query_embedding, none⟩
    | some sv =>
      match hybrid_score_norm query_embedding sv alpha with
      | .error e => .error e
      | .ok (nd, nsv) => .ok ⟨ns, k, true, nd, some nsv⟩

/-- The successive slices `vectors[i:i+bs]` taken by the loop of
`VectorStore.upload_vectors` (vector_store.py lines 56-57), with fuel for
structural recursion; fuel `l.length` suffices whenever `1 ≤ bs`. -/
def chunksOfAux {α : Type} (bs : Nat) : Nat → List α → List (List α)
  | _, [] => []
  | 0, _ :: _ => []
  | fuel + 1, x :: xs => (x :: xs).take bs :: chunksOfAux bs fuel ((x :: xs).drop bs)

/-- The list of batches `upload_vectors` iterates over, in order. -/
def chunksOf {α : Type} (bs : Nat) (l : List α) : List (List α) :=
  chunksOfAux bs l.length l

/-- Observable outcome of `VectorStore.upload_vectors`: the batch numbers
attempted in order, the batches successfully upserted before any failure,
and the exception if one escaped (the source propagates the provider
exception unchanged, so `batchFailed` carries exactly the provider error). -/
inductive UploadOutcome (R ε : Type) where
  | ok (attempts : List Nat) (uploaded : List (List R))
  | invalidNamespace (msg : String)
  | batchFailed (attempts : List Nat) (uploaded : List (List R)) (e : ε)
deriving DecidableEq

/-- The upsert loop of `upload_vectors` (vector_store.py lines 56-65):
`fail b` is the provider outcome for the call upserting batch number `b`
(numbering `i // batch_size + 1`, so 1-based).  A failing upsert aborts
the loop; nothing is retried; nothing is added to the exception. -/
def uploadGo {R ε : Type} (fail : Nat → Option ε) :
    List (List R) → Nat → UploadOutcome R ε
  | [], _ => .ok [] []
  | b :: rest, idx =>
    match fail idx with
    | some e => .batchFailed [idx] [] e
    | none =>
      match uploadGo fail rest (idx + 1) with
      | .ok as ls => .ok (idx :: as) (b :: ls)
      | .batchFailed as ls e => .batchFailed (idx :: as) (b :: ls) e
      | .invalidNamespace m => .invalidNamespace m

/-- Embedding of `VectorStore.upload_vectors` (vector_store.py lines
46-65): an empty vector list returns before the namespace check; an empty
namespace raises ValueError; otherwise the batches are upserted in order. -/
def upload_vectors {R ε : Type} (fail : Nat → Option ε) (vectors : List R)
    (ns : String) (batch_size : Nat) : UploadOutcome R ε :=
  if vectors.isEmpty then .ok [] []
  else if ns = "" then .invalidNamespace "Namespace is required for uploading vectors"
  else uploadGo fail (chunksOf batch_size vectors) 1

/-- Error escaping an upload, if any. -/
def errOf {R ε : Type} : UploadOutcome R ε → Option ε
  | .batchFailed _ _ e => some e
  | _ => none

/-- ASCII whitespace class of Python str.strip (space, tab, newline,
carriage return, vertical tab, form feed). -/
def isPySpace (c : Char) : Bool :=
  c = ' ' || c = '\t' || c = '\n' || c = '\r' || c = Char.ofNat 11 || c = Char.ofNat 12

/-- Python v.strip(). -/
def pyStrip (s : String) : String :=
  ⟨((s.data.dropWhile isPySpace).reverse.dropWhile isPySpace).reverse⟩

/-- Python v.lower() on ASCII letters. -/
def pyLower (s : String) : String :=
  ⟨s.data.map Char.toLower⟩

/-- Python v.replace(" ", "_"). -/
def pyReplaceSpaceUnderscore (s : String) : String :=
  ⟨s.data.map (fun c => if c = ' ' then '_' else c)⟩

/-- Embedding of `QueryRequest.validate_namespace` (schemas.py lines
21-25): reject a whitespace-only namespace, else strip, lowercase, and
replace spaces with underscores.  This validator runs only on the query
request model. -/
def validate_namespace (v : String) : Except PyError String :=
  if pyStrip v = "" then .error (.valueError "Namespace cannot be empty or just whitespace")
  else .ok (pyReplaceSpaceUnderscore (pyLower (pyStrip v)))

/-- The namespace string `upload_document` hands to `process_document`
(document_router.py line 63, expression `namespace or
"think-and-grow-rich"`): the client value when truthy, else the default;
no normalization happens on this path. -/
def upload_document_ns : Option String → String
  | none => "think-and-grow-rich"
  | some s => if s = "" then "think-and-grow-rich" else s

/-- Embedding of `VectorStore.delete_namespace` (vector_store.py lines
107-112): guards against an empty namespace and deletes exactly the
namespace it was given; the delete router passes its path parameter
through unchanged. -/
def delete_namespace_ns (ns : String) : Except PyError String :=
  if ns = "" then .error (.valueError "Namespace is required") else .ok ns

/-- A loaded document chunk as consumed by `process_document`: the page
text and the two metadata fields the assembly reads. -/
structure PyDocument where
  page_content : String
  page : Option Int
  page_label : Option String
deriving DecidableEq

/-- A record as assembled by `process_document` step 5 (rag_service.py
lines 79-91). -/
structure PineconeVector where
  id : String
  values : List ℚ
  sparse_values : SparseVec
  md_text : String
  md_page : Option Int
  md_page_label : Option String
deriving DecidableEq

/-- The assembly loop of `process_document` (rag_service.py lines
79-91): iterate `zip(chunks, embeddings, sparse_vectors)` with the
1-based id counter made explicit.  Python zip stops at the shortest
sequence, and so does this recursion. -/
def prepareVectorsFrom (ns : String) :
    Nat → List PyDocument → List (List ℚ) → List SparseVec → List PineconeVector
  | n, doc :: docs, emb :: embs, sv :: svs =>
      ⟨ns ++ "#chunk" ++ toString n, emb, sv, doc.page_content, doc.page, doc.page_label⟩
        :: prepareVectorsFrom ns (n + 1) docs embs svs
  | _, _, _, _ => []

/-- The records `process_document` assembles before uploading. -/
def prepareVectors (ns : String) (docs : List PyDocument) (embs : List (List ℚ))
    (svs : List SparseVec) : List PineconeVector :=
  prepareVectorsFrom ns 1 docs embs svs

/-- The single-quote character, as interpolated by the f-strings of the
error messages. -/
def sq : String := String.singleton (Char.ofNat 39)

/-- Python repr of a list of strings, as f-string interpolation renders
the available-namespaces list. -/
def pyListRepr (l : List String) : String :=
  "[" ++ String.intercalate ", " (l.map (fun s => sq ++ s ++ sq)) ++ "]"

/-- The ValueError message raised for a missing namespace
(rag_service.py line 169); it carries the requested namespace and the
available namespaces. -/
def nsNotFoundMsg (ns : String) (available : List String) : String :=
  "Namespace " ++ sq ++ ns ++ sq ++ " does not exist. Available namespaces: "
    ++ pyListRepr available

/-- The ValueError message raised for zero matches (rag_service.py
line 193). -/
def noResultsMsg (ns : String) : String :=
  "No results found in namespace " ++ sq ++ ns ++ sq

/-- A match returned by the index, with the metadata fields the service
reads (rag_service.py lines 197, 229-237). -/
structure MatchR where
  id : String
  md_text : String
  md_page : Option String
  md_page_label : Option String
deriving DecidableEq

/-- A source entry of the query response. -/
structure SourceR where
  id : String
  content : String
  page : String
  page_label : String
deriving DecidableEq

/-- The response dictionary of `RAGService.query`. -/
structure QueryResponseR where
  answer : String
  sources : List SourceR
deriving DecidableEq

/-- The query parameters `RAGService.query` causes to reach the index
(rag_service.py lines 164-189 composed with similarity_search): validate
the namespace against the available list, embed and sparse-encode the
query with the process-wide encoders, and hand the raw vectors to the
gateway, which builds the index parameters. -/
def rag_query_index_params (available : List String) (embed : String → List ℚ)
    (encode : String → SparseVec) (q ns : String) (k : Nat) (alpha : ℚ) :
    Except PyError QueryParams :=
  if ns ∈ available then
    similarity_search_params (embed q) ns k (some (encode q)) alpha
  else .error (.valueError (nsNotFoundMsg ns available))

/-- Embedding of `RAGService.query` (rag_service.py lines 156-242), with
the external collaborators as parameters: `embed` the dense embedder,
`encode` the sparse query encoder, `iq` the index query, `llm` the
answering model applied to the assembled context and the question. -/
def rag_query (available : List String) (embed : String → List ℚ)
    (encode : String → SparseVec) (iq : QueryParams → List MatchR)
    (llm : String → String → String) (q ns : String) (k : Nat) (alpha : ℚ) :
    Except PyError QueryResponseR :=
  match rag_query_index_params available embed encode q ns k alpha with
  | .error e => .error e
  | .ok params =>
    let results := iq params
    if results.isEmpty then .error (.valueError (noResultsMsg ns))
    else
      let context := String.intercalate "\n\n" (results.map MatchR.md_text)
      let answer := llm context q
      .ok ⟨answer, results.map (fun m =>
        ⟨m.id, m.md_text, m.md_page.getD "N/A", m.md_page_label.getD "N/A"⟩)⟩

/-- HTTP outcome of the query router. -/
inductive HTTPOutcome where
  | success (body : QueryResponseR)
  | errorResp (status : Nat) (detail : String)
deriving DecidableEq

/-- Embedding of the `query_document` handler (query_router.py lines
32-58): a ValueError becomes a 404 response carrying the message; any
other exception becomes a 500 response. -/
def query_document (available : List String) (embed : String → List ℚ)
    (encode : String → SparseVec) (iq : QueryParams → List MatchR)
    (llm : String → String → String) (q ns : String) (k : Nat) (alpha : ℚ) :
    HTTPOutcome :=
  match rag_query available embed encode iq llm q ns k alpha with
  | .ok r => .success r
  | .error (.valueError m) => .errorResp 404 m
  | .error (.otherError m) => .errorResp 500 m

/-- The fuel of `chunksOfAux` is irrelevant once it covers the length. -/
theorem chunksOfAux_congr {α : Type} (bs : Nat) (hbs : 1 ≤ bs) :
    ∀ (f g : Nat) (l : List α), l.length ≤ f → l.length ≤ g →
      chunksOfAux bs f l = chunksOfAux bs g l := by
  intro f
  induction f with
  | zero =>
    intro g l hf _
    cases l with
    | nil => cases g <;> rfl
    | cons x xs => simp at hf
  | succ f ih =>
    intro g l hf hg
    cases l with
    | nil => cases g <;> rfl
    | cons x xs =>
      cases g with
      | zero => simp at hg
      | succ g =>
        simp only [List.length_cons] at hf hg
        have hd : ((x :: xs).drop bs).length ≤ f := by
          simp only [List.length_drop, List.length_cons]
          omega
        have hd2 : ((x :: xs).drop bs).length ≤ g := by
          simp only [List.length_drop, List.length_cons]
          omega
        simp only [chunksOfAux, ih g _ hd hd2]

/-- Unfolding equation for `chunksOf` on a non-empty list. -/
theorem chunksOf_cons {α : Type} (bs : Nat) (hbs : 1 ≤ bs) (x : α) (xs : List α) :
    chunksOf bs (x :: xs) = (x :: xs).take bs :: chunksOf bs ((x :: xs).drop bs) := by
  unfold chunksOf
  simp only [List.length_cons, chunksOfAux]
  refine congrArg _ (chunksOfAux_congr bs hbs _ _ _ ?_ le_rfl)
  simp only [List.length_drop, List.length_cons]
  omega

/-- The batches concatenate back to the original list (order preserved). -/
theorem chunksOf_join {α : Type} (bs : Nat) (hbs : 1 ≤ bs) :
    ∀ (n : Nat) (l : List α), l.length ≤ n → (chunksOf bs l).flatten = l := by
  intro n
  induction n with
  | zero =>
    intro l hl
    cases l with
    | nil => rfl
    | cons x xs => simp at hl
  | succ n ih =>
    intro l hl
    cases l with
    | nil => rfl
    | cons x xs =>
      rw [chunksOf_cons bs hbs]
      have hd : ((x :: xs).drop bs).length ≤ n := by
        simp only [List.length_drop, List.length_cons]
        simp only [List.length_cons] at hl
        omega
      simp only [List.flatten_cons, ih _ hd, List.take_append_drop]

/-- There are exactly ceil(n / bs) batches. -/
theorem chunksOf_length {α : Type} (bs : Nat) (hbs : 1 ≤ bs) :
    ∀ (n : Nat) (l : List α), l.length ≤ n →
      (chunksOf bs l).length = (l.length + bs - 1) / bs := by
  intro n
  induction n with
  | zero =>
    intro l hl
    cases l with
    | nil =>
      have h0 : (chunksOf bs ([] : List α)).length = 0 := rfl
      rw [h0]
      have hb : ([] : List α).length + bs - 1 = bs - 1 := by simp
      rw [hb]
      exact (Nat.div_eq_of_lt (by omega)).symm
    | cons x xs => simp at hl
  | succ n ih =>
    intro l hl
    cases l with
    | nil =>
      have h0 : (chunksOf bs ([] : List α)).length = 0 := rfl
      rw [h0]
      have hb : ([] : List α).length + bs - 1 = bs - 1 := by simp
      rw [hb]
      exact (Nat.div_eq_of_lt (by omega)).symm
    | cons x xs =>
      rw [chunksOf_cons bs hbs]
      have hd : ((x :: xs).drop bs).length ≤ n := by
        simp only [List.length_drop, List.length_cons]
        simp only [List.length_cons] at hl
        omega
      rw [List.length_cons, ih _ hd]
      simp only [List.length_drop, List.length_cons]
      rcases le_or_lt (xs.length + 1) bs with hle | hlt
      · rw [show xs.length + 1 - bs + bs - 1 = bs - 1 by omega]
        rw [show xs.length + 1 + bs - 1 = xs.length + bs by omega]
        rw [Nat.div_eq_of_lt (show bs - 1 < bs by omega)]
        rw [Nat.add_div_right _ (show 0 < bs by omega)]
        rw [Nat.div_eq_of_lt (show xs.length < bs by omega)]
      · rw [show xs.length + 1 - bs + bs - 1 = xs.length by omega]
        rw [show xs.length + 1 + bs - 1 = xs.length + bs by omega]
        rw [Nat.add_div_right _ (show 0 < bs by omega)]

/-- Every batch holds at most bs records and is non-empty. -/
theorem chunksOf_mem {α : Type} (bs : Nat) (hbs : 1 ≤ bs) :
    ∀ (n : Nat) (l : List α) (c : List α), l.length ≤ n → c ∈ chunksOf bs l →
      c.length ≤ bs ∧ c ≠ [] := by
  intro n
  induction n with
  | zero =>
    intro l c hl hc
    cases l with
    | nil => simp [chunksOf, chunksOfAux] at hc
    | cons x xs => simp at hl
  | succ n ih =>
    intro l c hl hc
    cases l with
    | nil => simp [chunksOf, chunksOfAux] at hc
    | cons x xs =>
      rw [chunksOf_cons bs hbs] at hc
      rcases List.mem_cons.mp hc with h | h
      · subst h
        constructor
        · exact List.length_take_le bs (x :: xs)
        · have : bs ≠ 0 := by omega
          cases bs with
          | zero => omega
          | succ b => simp [List.take]
      · have hd : ((x :: xs).drop bs).length ≤ n := by
          simp only [List.length_drop, List.length_cons]
          simp only [List.length_cons] at hl
          omega
        exact ih _ _ hd h

/-- When no batch fails, every batch is attempted once, in order. -/
theorem uploadGo_success {R ε : Type} (fail : Nat → Option ε)
    (h : ∀ i, fail i = none) :
    ∀ (chunks : List (List R)) (idx : Nat),
      uploadGo fail chunks idx = .ok (List.range' idx chunks.length) chunks := by
  intro chunks
  induction chunks with
  | nil => intro idx; rfl
  | cons b rest ih =>
    intro idx
    simp only [uploadGo, h idx, ih (idx + 1), List.length_cons, List.range'_succ]

/-- When batch number `idx + j` is the first to fail, the batches before
it were upserted, each batch up to it was attempted exactly once, and the
escaping error is the provider error itself. -/
theorem uploadGo_first_fail {R ε : Type} (fail : Nat → Option ε) :
    ∀ (chunks : List (List R)) (idx j : Nat) (e : ε),
      fail (idx + j) = some e → (∀ i, i < j → fail (idx + i) = none) →
      j < chunks.length →
      uploadGo fail chunks idx =
        .batchFailed (List.range' idx (j + 1)) (chunks.take j) e := by
  intro chunks
  induction chunks with
  | nil => intro idx j e _ _ hj; simp at hj
  | cons b rest ih =>
    intro idx j e hfail hbefore hj
    cases j with
    | zero =>
      simp only [Nat.add_zero] at hfail
      simp [uploadGo, hfail, List.range'_one]
    | succ j =>
      have h0 : fail idx = none := by
        have := hbefore 0 (by omega)
        simpa using this
      have hfail2 : fail (idx + 1 + j) = some e := by
        rw [show idx + 1 + j = idx + (j + 1) by omega]
        exact hfail
      have hbefore2 : ∀ i, i < j → fail (idx + 1 + i) = none := by
        intro i hi
        rw [show idx + 1 + i = idx + (i + 1) by omega]
        exact hbefore (i + 1) (by omega)
      have hj2 : j < rest.length := by
        simp only [List.length_cons] at hj
        omega
      simp only [uploadGo, h0, ih (idx + 1) j e hfail2 hbefore2 hj2,
        List.take_succ_cons, List.range'_succ]

/-- Claim C4 (amended): uploading n records with batch size 50 issues exactly
ceil(n/50) upsert calls in order (batch numbers 1, 2, ...), each batch
holding at most 50 records, the batches concatenating back to the record
list; when batch j is the first to fail, batches 1..j-1 have already
been upserted, batches 1..j were each attempted exactly once (no retry),
and the escaping error is the provider error itself, carrying neither
the failing batch index nor the batch count. -/
theorem C4_upload_batching {R ε : Type} (fail : Nat → Option ε) (vectors : List R)
    (ns : String) (hv : vectors ≠ []) (hns : ns ≠ "") :
    ((∀ i, fail i = none) →
      upload_vectors fail vectors ns 50 =
        .ok (List.range' 1 ((vectors.length + 50 - 1) / 50)) (chunksOf 50 vectors)
      ∧ (chunksOf 50 vectors).length = (vectors.length + 50 - 1) / 50
      ∧ (chunksOf 50 vectors).flatten = vectors
      ∧ ∀ c ∈ chunksOf 50 vectors, c.length ≤ 50)
    ∧ (∀ j e, 1 ≤ j → j ≤ (vectors.length + 50 - 1) / 50 → fail j = some e →
        (∀ i, 1 ≤ i → i < j → fail i = none) →
        upload_vectors fail vectors ns 50 =
          .batchFailed (List.range' 1 j) ((chunksOf 50 vectors).take (j - 1)) e) := by
  have hbs : (1 : Nat) ≤ 50 := by omega
  have hie : ¬ (vectors.isEmpty = true) := by
    simp only [List.isEmpty_iff]
    exact hv
  have hlen : (chunksOf 50 vectors).length = (vectors.length + 50 - 1) / 50 :=
    chunksOf_length 50 hbs vectors.length vectors le_rfl
  constructor
  · intro hall
    refine ⟨?_, hlen, chunksOf_join 50 hbs vectors.length vectors le_rfl,
      fun c hc => (chunksOf_mem 50 hbs vectors.length vectors c le_rfl hc).1⟩
    rw [upload_vectors, if_neg hie, if_neg hns]
    rw [uploadGo_success fail hall (chunksOf 50 vectors) 1, hlen]
  · intro j e hj1 hjB hfj hbef
    rw [upload_vectors, if_neg hie, if_neg hns]
    have hf2 : fail (1 + (j - 1)) = some e := by
      rw [show 1 + (j - 1) = j by omega]
      exact hfj
    have hb2 : ∀ i, i < j - 1 → fail (1 + i) = none := by
      intro i hi
      exact hbef (1 + i) (by omega) (by omega)
    have hjlt : j - 1 < (chunksOf 50 vectors).length := by
      rw [hlen]
      omega
    rw [uploadGo_first_fail fail (chunksOf 50 vectors) 1 (j - 1) e hf2 hb2 hjlt]
    rw [show j - 1 + 1 = j by omega]

/-- Witness for C4 at 120 records: exactly 3 batches, numbered 1..3. -/
theorem C4_upload_batching_witness :
    upload_vectors (fun _ => (none : Option Unit)) (List.replicate 120 (0 : Nat)) "ns" 50 =
      .ok (List.range' 1 3) (chunksOf 50 (List.replicate 120 (0 : Nat))) := by
  have h := (C4_upload_batching (fun _ => (none : Option Unit))
    (List.replicate 120 (0 : Nat)) "ns" (by decide) (by decide)).1 (fun i => rfl)
  exact h.1

/-- Claim C4 counterexample: uploading 120 records with batch size 50, a
failure at batch 2 and a failure at batch 3 escape as the very same
provider error, so the error surfaced to the caller does not name the
failing batch index or the batch count; the source propagates the
provider exception unchanged. -/
theorem C4_error_names_no_batch_counterexample :
    errOf (upload_vectors (fun i => if i = 2 then some () else none)
        (List.replicate 120 (0 : Nat)) "ns" 50)
      = errOf (upload_vectors (fun i => if i = 3 then some () else none)
        (List.replicate 120 (0 : Nat)) "ns" 50)
    ∧ upload_vectors (fun i => if i = 2 then some () else none)
        (List.replicate 120 (0 : Nat)) "ns" 50
      = .batchFailed [1, 2] [List.replicate 50 (0 : Nat)] ()
    ∧ upload_vectors (fun i => if i = 3 then some () else none)
        (List.replicate 120 (0 : Nat)) "ns" 50
      = .batchFailed [1, 2, 3]
          [List.replicate 50 (0 : Nat), List.replicate 50 (0 : Nat)] () := by
  refine ⟨?_, ?_, ?_⟩ <;> decide

/-- Claim C9 (amended): with a non-empty record list, an empty namespace makes
upload_vectors raise ValueError before any upsert is attempted; with an
empty record list the call returns silently (no upserts, no error)
whatever the namespace, because the emptiness early-return precedes the
namespace check. -/
theorem C9_empty_namespace_guard {R ε : Type} (fail : Nat → Option ε)
    (vectors : List R) (bs : Nat) (hv : vectors ≠ []) :
    upload_vectors fail vectors "" bs =
      .invalidNamespace "Namespace is required for uploading vectors"
    ∧ ∀ (ns : String) (bs2 : Nat),
        upload_vectors fail ([] : List R) ns bs2 = .ok [] [] := by
  constructor
  · have hie : ¬ (vectors.isEmpty = true) := by
      simp only [List.isEmpty_iff]
      exact hv
    rw [upload_vectors, if_neg hie, if_pos rfl]
  · intro ns bs2
    rfl

/-- Witness for C9 at a concrete input. -/
theorem C9_empty_namespace_guard_witness :
    upload_vectors (fun _ => (none : Option Unit)) [(0 : Nat)] "" 50 =
      .invalidNamespace "Namespace is required for uploading vectors" :=
  (C9_empty_namespace_guard (fun _ => (none : Option Unit)) [(0 : Nat)] 50 (by decide)).1

/-- Claim C9 counterexample: with an empty record list and an empty namespace,
upload_vectors returns successfully instead of raising, because the
record-list emptiness check runs before the namespace check. -/
theorem C9_empty_records_counterexample :
    upload_vectors (fun _ => (none : Option Unit)) ([] : List Nat) "" 50 = .ok [] [] := rfl

/-- The assembly produces one record per position of the shortest of the
three sequences. -/
theorem prepareVectorsFrom_length (ns : String) :
    ∀ (n : Nat) (docs : List PyDocument) (embs : List (List ℚ)) (svs : List SparseVec),
      (prepareVectorsFrom ns n docs embs svs).length =
        min (min docs.length embs.length) svs.length := by
  intro n docs
  induction docs generalizing n with
  | nil => intro embs svs; cases embs <;> cases svs <;> simp [prepareVectorsFrom]
  | cons d docs ih =>
    intro embs svs
    cases embs with
    | nil => cases svs <;> simp [prepareVectorsFrom]
    | cons e embs =>
      cases svs with
      | nil => simp [prepareVectorsFrom]
      | cons s svs =>
        simp only [prepareVectorsFrom, List.length_cons, ih (n + 1)]
        omega

/-- Record i of the assembly pairs chunk i, dense vector i and sparse
vector i, with id counter n + i. -/
theorem prepareVectorsFrom_get? (ns : String) :
    ∀ (i n : Nat) (docs : List PyDocument) (embs : List (List ℚ)) (svs : List SparseVec)
      (d : PyDocument) (e : List ℚ) (s : SparseVec),
      docs.get? i = some d → embs.get? i = some e → svs.get? i = some s →
      (prepareVectorsFrom ns n docs embs svs).get? i =
        some ⟨ns ++ "#chunk" ++ toString (n + i), e, s,
              d.page_content, d.page, d.page_label⟩ := by
  intro i
  induction i with
  | zero =>
    intro n docs embs svs d e s hd he hs
    cases docs with
    | nil => simp at hd
    | cons d0 docs =>
      cases embs with
      | nil => simp at he
      | cons e0 embs =>
        cases svs with
        | nil => simp at hs
        | cons s0 svs =>
          simp only [List.get?_cons_zero, Option.some_inj] at hd he hs
          subst hd he hs
          simp [prepareVectorsFrom]
  | succ i ih =>
    intro n docs embs svs d e s hd he hs
    cases docs with
    | nil => simp at hd
    | cons d0 docs =>
      cases embs with
      | nil => simp at he
      | cons e0 embs =>
        cases svs with
        | nil => simp at hs
        | cons s0 svs =>
          simp only [List.get?_cons_succ] at hd he hs
          simp only [prepareVectorsFrom, List.get?_cons_succ]
          rw [ih (n + 1) docs embs svs d e s hd he hs]
          rw [show n + 1 + i = n + (i + 1) by omega]

/-- Claim C7 counterexample: the upload route passes the client namespace to
ingestion unchanged, so the input "My Book " reaches the index
operations (record ids and upsert namespace) unnormalized, even though
the query-request validator would map the same input to "my_book". -/
theorem C7_upload_unnormalized_counterexample :
    upload_document_ns (some "My Book ") = "My Book "
    ∧ validate_namespace "My Book " = .ok "my_book"
    ∧ "My Book " ≠ "my_book"
    ∧ (prepareVectors "My Book " [⟨"t", none, none⟩] [[1]] [⟨[], []⟩]).map
        PineconeVector.id = ["My Book #chunk1"] :=
  ⟨rfl, rfl, by decide, rfl⟩

/-- Claim C7 (amended): only the query route normalizes the namespace — the
QueryRequest validator strips, lowercases and replaces spaces with
underscores (mapping "My Book " to "my_book" and rejecting
whitespace-only input) — while the upload route uses the client string
unchanged (defaulting when absent or empty) and the delete operation
deletes exactly the raw namespace it is given. -/
theorem C7_normalization_on_query_path_only (s : String)
    (hs : pyStrip s ≠ "") (hne : s ≠ "") :
    validate_namespace s = .ok (pyReplaceSpaceUnderscore (pyLower (pyStrip s)))
    ∧ validate_namespace "My Book " = .ok "my_book"
    ∧ upload_document_ns (some s) = s
    ∧ delete_namespace_ns s = .ok s := by
  refine ⟨?_, rfl, ?_, ?_⟩
  · rw [validate_namespace, if_neg hs]
  · rw [upload_document_ns, if_neg hne]
  · rw [delete_namespace_ns, if_neg hne]

/-- Witness for C7 at the concrete input of the claim. -/
theorem C7_normalization_on_query_path_only_witness :
    validate_namespace "My Book " = .ok "my_book"
    ∧ upload_document_ns (some "My Book ") = "My Book " :=
  ⟨(C7_normalization_on_query_path_only "My Book " (by decide) (by decide)).2.1,
   (C7_normalization_on_query_path_only "My Book " (by decide) (by decide)).2.2.1⟩

/-- Claim C8 counterexample: two chunks, one dense embedding, two sparse
vectors — the assembly silently zips down to one record instead of
failing with an arity error. -/
theorem C8_silent_truncation_counterexample :
    prepareVectors "ns" [⟨"a", none, none⟩, ⟨"b", none, none⟩] [[1]]
        [⟨[], []⟩, ⟨[], []⟩]
      = [⟨"ns#chunk1", [1], ⟨[], []⟩, "a", none, none⟩] := rfl

/-- Claim C8 (amended): the assembly zips the chunks, dense embeddings and
sparse vectors positionally, silently truncating to the shortest
sequence when the lengths disagree (no arity error is raised); when
position i exists in all three sequences, record i pairs chunk i with
dense vector i and sparse vector i under id ns#chunk(i+1). -/
theorem C8_assembly_zips_to_shortest (ns : String) (docs : List PyDocument)
    (embs : List (List ℚ)) (svs : List SparseVec) :
    (prepareVectors ns docs embs svs).length =
      min (min docs.length embs.length) svs.length
    ∧ ∀ i d e s, docs.get? i = some d → embs.get? i = some e → svs.get? i = some s →
        (prepareVectors ns docs embs svs).get? i =
          some ⟨ns ++ "#chunk" ++ toString (i + 1), e, s,
                d.page_content, d.page, d.page_label⟩ := by
  constructor
  · exact prepareVectorsFrom_length ns 1 docs embs svs
  · intro i d e s hd he hs
    rw [prepareVectors, prepareVectorsFrom_get? ns i 1 docs embs svs d e s hd he hs]
    rw [show 1 + i = i + 1 by omega]

/-- Witness for C8 at a concrete aligned input. -/
theorem C8_assembly_zips_to_shortest_witness :
    (prepareVectors "ns" [⟨"t", none, none⟩] [[1]] [⟨[0], [1]⟩]).get? 0 =
      some ⟨"ns#chunk1", [1], ⟨[0], [1]⟩, "t", none, none⟩ :=
  (C8_assembly_zips_to_shortest "ns" [⟨"t", none, none⟩] [[1]] [⟨[0], [1]⟩]).2
    0 ⟨"t", none, none⟩ [1] ⟨[0], [1]⟩ rfl rfl rfl

/-- Strings with different character data differ. -/
theorem string_data_append (s t : String) : (s ++ t).data = s.data ++ t.data := by
  cases s
  cases t
  rfl

/-- The zero-matches message always differs from the missing-namespace
message (their second characters differ), whatever the namespaces and
the available list. -/
theorem noResultsMsg_ne_nsNotFoundMsg (ns ns2 : String) (avail : List String) :
    noResultsMsg ns ≠ nsNotFoundMsg ns2 avail := by
  intro h
  have hd := congrArg String.data h
  rw [noResultsMsg, nsNotFoundMsg] at hd
  simp only [string_data_append, List.append_assoc] at hd
  simp only [List.cons_append, List.nil_append] at hd
  injection hd with hN hd2
  injection hd2 with hoa hd3
  exact absurd hoa (by decide)

/-- Claim C1: for alpha in [0,1], hybrid_score_norm returns the dense vector
scaled elementwise by alpha paired with a sparse vector whose indices are
unchanged and whose values are scaled by (1 - alpha). -/
theorem C1_hybrid_score_norm_convex (d : List ℚ) (s : SparseVec) (a : ℚ)
    (h0 : 0 ≤ a) (h1 : a ≤ 1) :
    hybrid_score_norm d s a =
      .ok (d.map (fun v => v * a),
           ⟨s.indices, s.values.map (fun v => v * (1 - a))⟩) := by
  unfold hybrid_score_norm
  rw [if_neg]
  push_neg
  exact ⟨h0, h1⟩

/-- Witness for C1 at a concrete input. -/
theorem C1_hybrid_score_norm_convex_witness :
    hybrid_score_norm [1, 2] ⟨[3], [4]⟩ (1/2) =
      .ok ([1, 2].map (fun v => v * (1/2)),
           ⟨[3], [4].map (fun v => v * (1 - 1/2))⟩) :=
  C1_hybrid_score_norm_convex [1, 2] ⟨[3], [4]⟩ (1/2) (by norm_num) (by norm_num)

/-- Claim C3: hybrid_score_norm raises ValueError exactly when alpha is outside
[0,1]; in particular it errors at -0.01 and 1.01 and succeeds at the
boundaries 0 and 1. -/
theorem C3_hybrid_score_norm_alpha_validation (d : List ℚ) (s : SparseVec) (a : ℚ) :
    (hybrid_score_norm d s a = .error (.valueError "Alpha must be between 0 and 1")
      ↔ (a < 0 ∨ a > 1))
    ∧ exceptOk (hybrid_score_norm d s (-1/100)) = false
    ∧ exceptOk (hybrid_score_norm d s (101/100)) = false
    ∧ exceptOk (hybrid_score_norm d s 0) = true
    ∧ exceptOk (hybrid_score_norm d s 1) = true := by
  refine ⟨⟨fun h => ?_, fun h => ?_⟩, ?_, ?_, ?_, ?_⟩
  · by_contra hc
    rw [hybrid_score_norm, if_neg hc] at h
    exact Except.noConfusion h
  · rw [hybrid_score_norm, if_pos h]
  · rw [hybrid_score_norm, if_pos (by norm_num)]
    rfl
  · rw [hybrid_score_norm, if_pos (by norm_num)]
    rfl
  · rw [hybrid_score_norm, if_neg (by norm_num)]
    rfl
  · rw [hybrid_score_norm, if_neg (by norm_num)]
    rfl

/-- Claim C10: with no sparse query vector, the query parameters do not depend
on alpha, and (for a non-empty namespace) the dense vector is passed to
the index unchanged. -/
theorem C10_dense_only_ignores_alpha (emb : List ℚ) (ns : String) (k : Nat)
    (a a2 : ℚ) :
    similarity_search_params emb ns k none a = similarity_search_params emb ns k none a2
    ∧ similarity_search_params emb ns k none a =
        (if ns = "" then .error (.valueError "Namespace is required for similarity search")
         else .ok ⟨ns, k, true, emb, none⟩) := by
  unfold similarity_search_params
  by_cases h : ns = "" <;> simp [h]

/-- Claim C5: querying a namespace absent from the available list fails with
the ValueError carrying the requested namespace and the available list,
and the router maps it to a 404 not-found response, never a generic 500;
the result does not depend on the embedding, sparse-encoding, index or
answering oracles, so the failure happens before any embedding or index
query is performed. -/
theorem C5_missing_namespace_fails_first (available : List String)
    (embed : String → List ℚ) (encode : String → SparseVec)
    (iq : QueryParams → List MatchR) (llm : String → String → String)
    (q ns : String) (k : Nat) (alpha : ℚ) (h : ns ∉ available) :
    rag_query available embed encode iq llm q ns k alpha =
      .error (.valueError (nsNotFoundMsg ns available))
    ∧ query_document available embed encode iq llm q ns k alpha =
      .errorResp 404 (nsNotFoundMsg ns available) := by
  have hp : rag_query_index_params available embed encode q ns k alpha =
      .error (.valueError (nsNotFoundMsg ns available)) := by
    rw [rag_query_index_params, if_neg h]
  constructor
  · rw [rag_query, hp]
  · rw [query_document, rag_query, hp]

/-- Witness for C5 at a concrete missing namespace. -/
theorem C5_missing_namespace_fails_first_witness :
    query_document ["other"] (fun _ => [1]) (fun _ => ⟨[], []⟩) (fun _ => [])
        (fun _ _ => "a") "q" "missing" 3 (1/2)
      = .errorResp 404 (nsNotFoundMsg "missing" ["other"]) :=
  (C5_missing_namespace_fails_first ["other"] (fun _ => [1]) (fun _ => ⟨[], []⟩)
    (fun _ => []) (fun _ _ => "a") "q" "missing" 3 (1/2) (by decide)).2

/-- Claim C2 counterexample: with a sparse vector provided the gateway does
not pass the vectors to the index unchanged — it applies
hybrid_score_norm itself: at alpha 1/2 the dense vector [1] reaches the
index as [1/2] and the sparse values [2] as [1]. -/
theorem C2_gateway_normalizes_counterexample :
    similarity_search_params [1] "n" 3 (some ⟨[0], [2]⟩) (1/2) =
      .ok ⟨"n", 3, true, [1/2], some ⟨[0], [1]⟩⟩
    ∧ ([1/2] : List ℚ) ≠ [1] := by
  constructor
  · rw [similarity_search_params, if_neg (by decide), hybrid_score_norm,
      if_neg (by norm_num)]
    norm_num
  · intro h
    rw [List.cons.injEq] at h
    norm_num at h

/-- Claim C2 (amended): the orchestrator passes the raw dense and sparse query
vectors to the gateway, and the gateway applies the Hybrid Score
Normalizer exactly once before querying the index: for a valid alpha and
a namespace present in the available list, the parameters reaching the
index are exactly the once-normalized encoder outputs. -/
theorem C2_normalization_once_in_gateway (available : List String)
    (embed : String → List ℚ) (encode : String → SparseVec)
    (q ns : String) (k : Nat) (alpha : ℚ)
    (h : ns ∈ available) (hns : ns ≠ "") (h0 : 0 ≤ alpha) (h1 : alpha ≤ 1) :
    rag_query_index_params available embed encode q ns k alpha =
      .ok ⟨ns, k, true, (embed q).map (fun v => v * alpha),
           some ⟨(encode q).indices,
                 (encode q).values.map (fun v => v * (1 - alpha))⟩⟩ := by
  have hno : ¬ (alpha < 0 ∨ alpha > 1) := by
    push_neg
    exact ⟨h0, h1⟩
  rw [rag_query_index_params, if_pos h, similarity_search_params, if_neg hns,
    hybrid_score_norm, if_neg hno]

/-- Witness for C2 at a concrete valid input. -/
theorem C2_normalization_once_in_gateway_witness :
    rag_query_index_params ["n"] (fun _ => [1]) (fun _ => ⟨[0], [2]⟩) "q" "n" 3 (1/2) =
      .ok ⟨"n", 3, true, [1].map (fun v => v * (1/2)),
           some ⟨[0], [2].map (fun v => v * (1 - 1/2))⟩⟩ :=
  C2_normalization_once_in_gateway ["n"] (fun _ => [1]) (fun _ => ⟨[0], [2]⟩)
    "q" "n" 3 (1/2) (by decide) (by decide) (by norm_num) (by norm_num)

/-- Claim C6 counterexample: a zero-matches query on an existing namespace and
a query on a missing namespace both raise the ValueError kind, and the
router maps both to the same 404 status: the two failures are not
distinct error kinds, they differ only in message text. -/
theorem C6_same_error_kind_counterexample :
    rag_query ["a"] (fun _ => [1]) (fun _ => ⟨[0], [1]⟩) (fun _ => [])
        (fun _ _ => "ans") "what" "a" 3 (1/2)
      = .error (.valueError (noResultsMsg "a"))
    ∧ rag_query ["a"] (fun _ => [1]) (fun _ => ⟨[0], [1]⟩) (fun _ => [])
        (fun _ _ => "ans") "what" "b" 3 (1/2)
      = .error (.valueError (nsNotFoundMsg "b" ["a"]))
    ∧ PyError.kindIdx (.valueError (noResultsMsg "a"))
        = PyError.kindIdx (.valueError (nsNotFoundMsg "b" ["a"]))
    ∧ query_document ["a"] (fun _ => [1]) (fun _ => ⟨[0], [1]⟩) (fun _ => [])
        (fun _ _ => "ans") "what" "a" 3 (1/2)
      = .errorResp 404 (noResultsMsg "a")
    ∧ query_document ["a"] (fun _ => [1]) (fun _ => ⟨[0], [1]⟩) (fun _ => [])
        (fun _ _ => "ans") "what" "b" 3 (1/2)
      = .errorResp 404 (nsNotFoundMsg "b" ["a"]) := by
  have hq1 : rag_query ["a"] (fun _ => [1]) (fun _ => ⟨[0], [1]⟩) (fun _ => [])
      (fun _ _ => "ans") "what" "a" 3 (1/2)
      = .error (.valueError (noResultsMsg "a")) := by
    rw [rag_query, rag_query_index_params, if_pos (by decide),
      similarity_search_params, if_neg (by decide), hybrid_score_norm,
      if_neg (by norm_num)]
    simp
  have hq2 : rag_query ["a"] (fun _ => [1]) (fun _ => ⟨[0], [1]⟩) (fun _ => [])
      (fun _ _ => "ans") "what" "b" 3 (1/2)
      = .error (.valueError (nsNotFoundMsg "b" ["a"])) := by
    rw [rag_query, rag_query_index_params, if_neg (by decide)]
  refine ⟨hq1, hq2, rfl, ?_, ?_⟩
  · rw [query_document, hq1]
  · rw [query_document, hq2]

/-- Claim C6 (amended): a query on an existing namespace for which the index
returns zero matches fails with the ValueError carrying the no-results
message — the same exception kind as the missing-namespace error and
the same 404 router mapping, distinguishable from it only by the message
text, which always differs between the two cases. -/
theorem C6_no_results_same_kind_distinct_message (available : List String)
    (embed : String → List ℚ) (encode : String → SparseVec)
    (iq : QueryParams → List MatchR) (llm : String → String → String)
    (q ns : String) (k : Nat) (alpha : ℚ)
    (h : ns ∈ available) (hns : ns ≠ "") (h0 : 0 ≤ alpha) (h1 : alpha ≤ 1)
    (hiq : ∀ p, iq p = []) :
    rag_query available embed encode iq llm q ns k alpha =
      .error (.valueError (noResultsMsg ns))
    ∧ query_document available embed encode iq llm q ns k alpha =
      .errorResp 404 (noResultsMsg ns)
    ∧ (∀ ns2 avail2, noResultsMsg ns ≠ nsNotFoundMsg ns2 avail2)
    ∧ PyError.kindIdx (.valueError (noResultsMsg ns)) =
        PyError.kindIdx (.valueError (nsNotFoundMsg ns available)) := by
  have hno : ¬ (alpha < 0 ∨ alpha > 1) := by
    push_neg
    exact ⟨h0, h1⟩
  have hq : rag_query available embed encode iq llm q ns k alpha =
      .error (.valueError (noResultsMsg ns)) := by
    rw [rag_query, rag_query_index_params, if_pos h, similarity_search_params,
      if_neg hns, hybrid_score_norm, if_neg hno]
    simp [hiq]
  exact ⟨hq, by rw [query_document, hq],
    fun ns2 avail2 => noResultsMsg_ne_nsNotFoundMsg ns ns2 avail2, rfl⟩

/-- Witness for C6 at a concrete input with an all-empty index. -/
theorem C6_no_results_same_kind_distinct_message_witness :
    rag_query ["ns1"] (fun _ => [1]) (fun _ => ⟨[0], [1]⟩) (fun _ => [])
        (fun _ _ => "ans") "what" "ns1" 3 (1/2)
      = .error (.valueError (noResultsMsg "ns1")) :=
  (C6_no_results_same_kind_distinct_message ["ns1"] (fun _ => [1])
    (fun _ => ⟨[0], [1]⟩) (fun _ => []) (fun _ _ => "ans") "what" "ns1" 3 (1/2)
    (by decide) (by decide) (by norm_num) (by norm_num) (fun p => rfl)).1

end Rag

